import Mathlib

/-!
# roadsmtp — verification of the SMTP client core

Shallow embedding of `src/roadsmtp/smtp.py`: the message model (`Email`,
`Attachment`), the MIME builder (`SMTPClient._build_message`), the response
reader (`SMTPClient._read_response`), and the SMTP session protocol driver
(`connect` / `send` / `close` / the `with`-statement entry point).

Bytes are modelled as `Fin 256`.  The transport is modelled as an oracle:
a list of server responses consumed in order, together with a trace of the
events (command lines, message bodies) the client writes to the socket.
-/

namespace RoadSMTP

/-- A byte, as stored in `Attachment.content`. -/
abbrev Byte := Fin 256

/-! ## Base64 (Python `base64.b64encode` / `email.encoders.encode_base64`) -/

/-- The standard base64 alphabet, index `i` ↦ digit for sextet value `i`. -/
def b64Alphabet : List Char :=
  ['A', 'B', 'C', 'D', 'E', 'F', 'G', 'H', 'I', 'J', 'K', 'L', 'M',
   'N', 'O', 'P', 'Q', 'R', 'S', 'T', 'U', 'V', 'W', 'X', 'Y', 'Z',
   'a', 'b', 'c', 'd', 'e', 'f', 'g', 'h', 'i', 'j', 'k', 'l', 'm',
   'n', 'o', 'p', 'q', 'r', 's', 't', 'u', 'v', 'w', 'x', 'y', 'z',
   '0', '1', '2', '3', '4', '5', '6', '7', '8', '9', '+', '/']

/-- The base64 digit for a sextet. -/
def encChar (n : Fin 64) : Char := b64Alphabet.getD n.val 'A'

/-- The sextet for a base64 digit; `none` for characters outside the alphabet. -/
def decChar (ch : Char) : Option (Fin 64) :=
  let i := b64Alphabet.indexOf ch
  if h : i < 64 then some ⟨i, h⟩ else none

/-- First sextet of a 3-byte group: the top 6 bits of the first byte. -/
def sx1 (a : Byte) : Fin 64 :=
  ⟨a.val / 4, by have := a.isLt; omega⟩

/-- Second sextet: low 2 bits of byte 1 and top 4 bits of byte 2. -/
def sx2 (a b : Byte) : Fin 64 :=
  ⟨a.val % 4 * 16 + b.val / 16, by have := a.isLt; have := b.isLt; omega⟩

/-- Third sextet: low 4 bits of byte 2 and top 2 bits of byte 3. -/
def sx3 (b c : Byte) : Fin 64 :=
  ⟨b.val % 16 * 4 + c.val / 64, by have := b.isLt; have := c.isLt; omega⟩

/-- Fourth sextet: the low 6 bits of byte 3. -/
def sx4 (c : Byte) : Fin 64 :=
  ⟨c.val % 64, by have := c.isLt; omega⟩

/-- Base64-encode a byte sequence, with `=` padding, as Python's
`base64.b64encode` does. -/
def encB64 : List Byte → List Char
  | [] => []
  | [a] => [encChar (sx1 a), encChar (sx2 a 0), '=', '=']
  | [a, b] => [encChar (sx1 a), encChar (sx2 a b), encChar (sx3 b 0), '=']
  | a :: b :: c :: t =>
      encChar (sx1 a) :: encChar (sx2 a b) :: encChar (sx3 b c) :: encChar (sx4 c)
        :: encB64 t

/-- Byte reassembled from sextets 1 and 2. -/
def byte1 (s1 s2 : Fin 64) : Byte :=
  ⟨s1.val * 4 + s2.val / 16, by have := s1.isLt; have := s2.isLt; omega⟩

/-- Byte reassembled from sextets 2 and 3. -/
def byte2 (s2 s3 : Fin 64) : Byte :=
  ⟨s2.val % 16 * 16 + s3.val / 4, by have := s2.isLt; have := s3.isLt; omega⟩

/-- Byte reassembled from sextets 3 and 4. -/
def byte3 (s3 s4 : Fin 64) : Byte :=
  ⟨s3.val % 4 * 64 + s4.val, by have := s3.isLt; have := s4.isLt; omega⟩

/-- Base64-decode; `none` on malformed input (as Python's strict
`base64.b64decode` rejects it). -/
def decB64 : List Char → Option (List Byte)
  | [] => some []
  | c1 :: c2 :: c3 :: c4 :: rest =>
    if c3 = '=' ∧ c4 = '=' ∧ rest = [] then
      match decChar c1, decChar c2 with
      | some s1, some s2 => some [byte1 s1 s2]
      | _, _ => none
    else if c4 = '=' ∧ rest = [] then
      match decChar c1, decChar c2, decChar c3 with
      | some s1, some s2, some s3 => some [byte1 s1 s2, byte2 s2 s3]
      | _, _, _ => none
    else
      match decChar c1, decChar c2, decChar c3, decChar c4 with
      | some s1, some s2, some s3, some s4 =>
        (decB64 rest).map fun bs => byte1 s1 s2 :: byte2 s2 s3 :: byte3 s3 s4 :: bs
      | _, _, _, _ => none
  | _ => none

/-! ## Message model (`Attachment`, `Email` dataclasses) -/

/-- The `Attachment` dataclass: filename, raw content bytes, MIME content type. -/
structure Attachment where
  filename : String
  content : List Byte
  content_type : String
deriving DecidableEq, Repr

/-- The `Email` dataclass.  `headers` is an insertion-ordered mapping, modelled as
the list of its entries in insertion order (Python `dict` iteration order). -/
structure Email where
  «to» : List String
  subject : String
  body : String := ""
  html : String := ""
  from_addr : String := ""
  cc : List String := []
  bcc : List String := []
  reply_to : String := ""
  attachments : List Attachment := []
  headers : List (String × String) := []
deriving DecidableEq, Repr

/-! ## MIME builder (`SMTPClient._build_message`) -/

/-- A leaf part of the built MIME document: either a `MIMEText` part
(subtype `"plain"` or `"html"`), or a base64-encoded `MIMEBase` attachment
part carrying its extra headers (here: the single `Content-Disposition`). -/
inductive BuiltPart where
  | text (subtype : String) (content : String)
  | filePart (maintype subtype : String) (payload : List Char)
      (headers : List (String × String))
deriving DecidableEq, Repr

/-- Top-level content of the built document: a bare `MIMEText` (no multipart
envelope) or a `MIMEMultipart` with a subtype and attached parts in order. -/
inductive BuiltContent where
  | single (subtype : String) (body : String)
  | multi (subtype : String) (parts : List BuiltPart)
deriving DecidableEq, Repr

/-- The built MIME document: top-level header lines in the order they were
assigned (Python `Message.__setitem__` appends, it never overwrites), plus
the content. -/
structure BuiltMessage where
  headers : List (String × String)
  content : BuiltContent
deriving DecidableEq, Repr

/-- Split a character list at the first occurrence of `sep`; `none` when
`sep` does not occur. -/
def splitFirst (sep : Char) : List Char → Option (List Char × List Char)
  | [] => none
  | c :: t =>
    if c = sep then some ([], t)
    else (splitFirst sep t).map fun p => (c :: p.1, p.2)

/-- Model of `att.content_type.split("/", 1)`, fed to `MIMEBase(*...)`: splits on the
first `/` only; `none` when no `/` is present (Python raises `TypeError`,
as `MIMEBase` is then missing its subtype argument). -/
def splitContentType (ct : String) : Option (String × String) :=
  (splitFirst '/' ct.toList).map fun p => (String.mk p.1, String.mk p.2)

/-- One attachment part: `MIMEBase(*content_type.split("/", 1))`, payload
base64-encoded by `encoders.encode_base64`, plus the
`Content-Disposition: attachment; filename=<filename>` header (filename
unquoted, verbatim). -/
def attachmentPart (a : Attachment) : Option BuiltPart :=
  (splitContentType a.content_type).map fun p =>
    .filePart p.1 p.2 (encB64 a.content)
      [("Content-Disposition", "attachment; filename=" ++ a.filename)]

/-- The `for att in email.attachments` loop of `_build_message`, failing on
the first attachment whose content type has no `/`. -/
def buildAtts : List Attachment → Option (List BuiltPart)
  | [] => some []
  | a :: t => (attachmentPart a).bind fun p => (buildAtts t).map fun ps => p :: ps

/-- The standard header assignments of `_build_message`, in program order:
Subject, From (`email.from_addr or config.username`), To (comma-joined),
Cc only if non-empty, Reply-To only if non-empty. -/
def stdHeaders (username : String) (e : Email) : List (String × String) :=
  [("Subject", e.subject),
   ("From", if e.from_addr = "" then username else e.from_addr),
   ("To", String.intercalate ", " e.«to»)]
  ++ (if e.cc = [] then [] else [("Cc", String.intercalate ", " e.cc)])
  ++ (if e.reply_to = "" then [] else [("Reply-To", e.reply_to)])

/-- The text parts attached inside a multipart container: plain part first
when `email.body` is non-empty, then html part when `email.html` is
non-empty. -/
def bodyParts (e : Email) : List BuiltPart :=
  (if e.body = "" then [] else [.text "plain" e.body])
  ++ (if e.html = "" then [] else [.text "html" e.html])

/-- Model of `SMTPClient._build_message` (smtp.py lines 113-143).  The envelope is
`MIMEMultipart("alternative" if email.html else "mixed")` when
`email.attachments or email.html` is truthy, otherwise a bare
`MIMEText(email.body, "plain")`.  Headers are assigned in both cases; parts
are attached only in the multipart case.  Custom headers are appended after
the standard ones (`msg[key] = value` appends).  `none` models the
`TypeError` raised when an attachment's content type has no `/`. -/
def build_message (username : String) (e : Email) : Option BuiltMessage :=
  if e.attachments ≠ [] ∨ e.html ≠ "" then
    (buildAtts e.attachments).map fun atts =>
      ⟨stdHeaders username e ++ e.headers,
       .multi (if e.html ≠ "" then "alternative" else "mixed")
         (bodyParts e ++ atts)⟩
  else
    some ⟨stdHeaders username e ++ e.headers, .single "plain" e.body⟩

/-- Top-level multipart subtype of a built document, `none` for a bare
single part. -/
def topSubtype (m : BuiltMessage) : Option String :=
  match m.content with
  | .single _ _ => none
  | .multi s _ => some s

/-- The parts attached to a built document (empty for a bare single part). -/
def partsOf (m : BuiltMessage) : List BuiltPart :=
  match m.content with
  | .single _ _ => []
  | .multi _ ps => ps

/-! ## Response reader (`SMTPClient._read_response`, lines 98-106)

The input is the stream of lines delivered by `self._file.readline()`,
already UTF-8-decoded and stripped of their trailing `"\r\n"` (which the
code does immediately on each line); each line is a `List Char` (Python
indexes by character). -/

/-- Model of `len(line) >= 4 and line[3] == " "`: the multi-line-response
terminator test. -/
def isTermLine (l : List Char) : Bool :=
  decide (4 ≤ l.length) && decide (l.getD 3 'x' = ' ')

/-- The accumulation loop of `_read_response`: collect lines up to and
including the first terminator line; `none` when the stream ends without a
terminator (the Python loop would block/fail on EOF). -/
def read_lines : List (List Char) → Option (List (List Char))
  | [] => none
  | l :: rest => if isTermLine l then some [l] else (read_lines rest).map (l :: ·)

/-- Value of a decimal digit character, `none` otherwise. -/
def digitVal (c : Char) : Option Nat :=
  if '0' ≤ c ∧ c ≤ '9' then some (c.toNat - '0'.toNat) else none

/-- Model of `int(line[:3])` restricted to three decimal digits (Python's `int`
agrees on every all-digit string; on other prefixes it raises or, for
stray whitespace/signs, differs — no SMTP status line has those). -/
def parseCode3 (l : List Char) : Option Nat :=
  match l.take 3 with
  | [d1, d2, d3] =>
    (digitVal d1).bind fun a =>
      (digitVal d2).bind fun b =>
        (digitVal d3).map fun c => a * 100 + b * 10 + c
  | _ => none

/-- Model of `"\n".join(lines)`. -/
def joinNL (ls : List (List Char)) : List Char := List.intercalate ['\n'] ls

/-- Model of `SMTPClient._read_response` on a stream of lines: accumulate through the
first terminator line, parse the status code from the first three characters
of that final line, and return it with the newline-joined accumulated
lines. -/
def read_response (input : List (List Char)) : Option (Nat × List Char) :=
  (read_lines input).bind fun lines =>
    (parseCode3 (lines.getLastD [])).map fun code => (code, joinNL lines)

/-! ## Session protocol model (`SMTPClient.connect` / `send` / `close`)

The server side is an oracle: a list of `Resp` consumed one per
`_read_response` call.  `Resp.ok code text` is a successfully read and
parsed response (the reader is verified separately above); `Resp.err`
models any exception raised while reading a response (broken transport,
timeout, malformed data).  The client's writes are recorded as a trace of
`Ev` events; each constructor stands for the literal line the code sends
(e.g. `Ev.mailFrom a` ↦ `"MAIL FROM:<" ++ a ++ ">\r\n"`,
`Ev.dataBody m` ↦ the serialized MIME document). -/

/-- One server response as seen by `_read_response`: a parsed
`(code, text)` pair, or a raised exception while reading. -/
inductive Resp where
  | ok (code : Nat) (text : String)
  | err
deriving DecidableEq, Repr

/-- A client write event, one per line/body the code sends. -/
inductive Ev where
  | ehlo
  | starttls
  | authLogin
  | authLine (payloadB64 : String)
  | mailFrom (addr : String)
  | rcptTo (addr : String)
  | dataCmd
  | dataBody (m : BuiltMessage)
  | dot
  | quit
deriving DecidableEq, Repr

/-- The transport: remaining server responses and the trace of client
writes so far. -/
structure Conn where
  resps : List Resp
  sent : List Ev
deriving DecidableEq, Repr

/-- Errors raised out of the client: a transport/read failure propagated
as-is, the `TypeError` from building a message with a slash-less attachment
content type, or an `SMTPError` carrying its message text. -/
inductive SendErr where
  | transport
  | buildFailure
  | protocol (text : String)
deriving DecidableEq, Repr

/-- Consume one response from the oracle (`_read_response` at the session
level). -/
def readResp (c : Conn) : Conn × Except SendErr (Nat × String) :=
  match c.resps with
  | [] => (c, .error .transport)
  | .err :: rest => ({ c with resps := rest }, .error .transport)
  | .ok code text :: rest => ({ c with resps := rest }, .ok (code, text))

/-- Model of `SMTPClient._command`: write the command line, then read one
response. -/
def command (c : Conn) (ev : Ev) : Conn × Except SendErr (Nat × String) :=
  readResp { c with sent := c.sent ++ [ev] }

/-- The `for recipient in recipients` loop of `send` (lines 153-156): one
`RCPT TO:<recipient>` per address, aborting with an `SMTPError` on the
first response code outside {250, 251}. -/
def sendRcpts (c : Conn) : List String → Conn × Except SendErr Unit
  | [] => (c, .ok ())
  | r :: rest =>
    match command c (.rcptTo r) with
    | (c1, .error e) => (c1, .error e)
    | (c1, .ok (code, msg)) =>
      if code = 250 ∨ code = 251 then sendRcpts c1 rest
      else (c1, .error (.protocol ("RCPT TO failed for " ++ r ++ ": " ++ msg)))

/-- Model of `recipients = email.to + email.cc + email.bcc` (line 147). -/
def recipientsOf (e : Email) : List String := e.«to» ++ e.cc ++ e.bcc

/-- The DATA phase of `send` (lines 158-168): `DATA` (must answer 354),
then the serialized message is built and written, then the terminating
`"."` line (must answer 250).  Returns `true` on success. -/
def dataPhase (username : String) (c : Conn) (e : Email) :
    Conn × Except SendErr Bool :=
  match command c .dataCmd with
  | (c3, .error er) => (c3, .error er)
  | (c3, .ok (code2, msg2)) =>
    if code2 ≠ 354 then (c3, .error (.protocol ("DATA failed: " ++ msg2)))
    else
      match build_message username e with
      | none => (c3, .error .buildFailure)
      | some m =>
        match command { c3 with sent := c3.sent ++ [Ev.dataBody m] } .dot with
        | (c5, .error er) => (c5, .error er)
        | (c5, .ok (code3, msg3)) =>
          if code3 ≠ 250 then
            (c5, .error (.protocol ("Send failed: " ++ msg3)))
          else (c5, .ok true)

/-- Model of `SMTPClient.send` (lines 145-168): MAIL FROM (must be 250), RCPT TO per
recipient (must be 250/251), then the DATA phase. -/
def sendEmail (username : String) (c : Conn) (e : Email) :
    Conn × Except SendErr Bool :=
  let from_addr := if e.from_addr = "" then username else e.from_addr
  match command c (.mailFrom from_addr) with
  | (c1, .error er) => (c1, .error er)
  | (c1, .ok (code, msg)) =>
    if code ≠ 250 then (c1, .error (.protocol ("MAIL FROM failed: " ++ msg)))
    else
      match sendRcpts c1 (recipientsOf e) with
      | (c2, .error er) => (c2, .error er)
      | (c2, .ok _) => dataPhase username c2 e

/-- The `SMTPConfig` dataclass (timeout elided: no claim depends on its
value). -/
structure SMTPConfig where
  host : String
  port : Nat := 587
  username : String := ""
  password : String := ""
  use_tls : Bool := true
deriving DecidableEq, Repr

/-- A session's externally visible resource state: the transport oracle and
trace, whether `self._socket` has been assigned an open socket, and how
many times `socket.close()` has been invoked on it. -/
structure Session where
  conn : Conn
  socketOpened : Bool
  closeCount : Nat
deriving DecidableEq, Repr

/-- Bytes of a string (UTF-8), for the AUTH LOGIN payloads. -/
def strBytes (s : String) : List Byte :=
  s.toUTF8.toList.map fun b => ⟨b.toNat, b.toNat_lt⟩

/-- Model of `base64.b64encode(s.encode()).decode()`. -/
def strB64 (s : String) : String := String.mk (encB64 (strBytes s))

/-- The authentication tail of `connect` (lines 91-94): only when both
username and password are non-empty (Python truthiness of the `and`). -/
def authSteps (cfg : SMTPConfig) (c : Conn) : Conn × Except SendErr Unit :=
  if cfg.username ≠ "" ∧ cfg.password ≠ "" then
    match command c .authLogin with
    | (c1, .error er) => (c1, .error er)
    | (c1, .ok _) =>
      match command c1 (.authLine (strB64 cfg.username)) with
      | (c2, .error er) => (c2, .error er)
      | (c2, .ok _) =>
        match command c2 (.authLine (strB64 cfg.password)) with
        | (c3, .error er) => (c3, .error er)
        | (c3, .ok _) => (c3, .ok ())
  else (c, .ok ())

/-- Model of `SMTPClient.connect` (lines 75-96).  The socket is created, connected
and wrapped in a reader first (`socketOpened := true`); the greeting is
read and discarded; `EHLO localhost` is issued; with `use_tls`, `STARTTLS`
is issued, the socket is TLS-wrapped in place (the wrap itself is modelled
as succeeding) and `EHLO localhost` re-issued; then AUTH LOGIN when
credentials are present.  No response code is validated here; errors are
raised reads propagating out.  There is no `try`/`finally`: on error the
opened socket is left as-is. -/
def connectS (cfg : SMTPConfig) (c : Conn) : Session × Except SendErr Unit :=
  let mk : Conn → Session := fun cn => ⟨cn, true, 0⟩
  match readResp c with
  | (c1, .error er) => (mk c1, .error er)
  | (c1, .ok _) =>
    match command c1 .ehlo with
    | (c2, .error er) => (mk c2, .error er)
    | (c2, .ok _) =>
      if cfg.use_tls then
        match command c2 .starttls with
        | (c3, .error er) => (mk c3, .error er)
        | (c3, .ok _) =>
          match command c3 .ehlo with
          | (c4, .error er) => (mk c4, .error er)
          | (c4, .ok _) =>
            match authSteps cfg c4 with
            | (c5, .error er) => (mk c5, .error er)
            | (c5, .ok _) => (mk c5, .ok ())
      else
        match authSteps cfg c2 with
        | (c5, .error er) => (mk c5, .error er)
        | (c5, .ok _) => (mk c5, .ok ())

/-- Model of `SMTPClient.close` (lines 170-176): `QUIT` is attempted and every
exception from it swallowed (`except Exception: pass`); afterwards
`socket.close()` runs exactly when `self._socket` is set.  The returned
`Except` is the call's outcome as seen by the caller: always `ok`. -/
def closeS (s : Session) : Session × Except SendErr Unit :=
  let (c1, _discarded) := command s.conn .quit
  ({ conn := c1,
     socketOpened := s.socketOpened,
     closeCount := if s.socketOpened then s.closeCount + 1 else s.closeCount },
   .ok ())

/-- The module-level `send` helper (lines 229-231):
`with SMTPClient(config) as client: return client.send(mail)`.
`__enter__` runs `connect()`; if it raises, Python never runs `__exit__`,
so `close()` is skipped.  If `connect()` succeeds, `__exit__` runs
`close()` whether `send` returns or raises, and the send outcome (value or
exception) is then delivered. -/
def sendTop (cfg : SMTPConfig) (c : Conn) (e : Email) :
    Session × Except SendErr Bool :=
  match connectS cfg c with
  | (s, .error er) => (s, .error er)
  | (s, .ok _) =>
    let r := sendEmail cfg.username s.conn e
    let s2 := (closeS { s with conn := r.1 }).1
    (s2, r.2)

/-- The `Ev.rcptTo` recognizer, for counting RCPT commands in a trace. -/
def isRcptEv : Ev → Bool
  | .rcptTo _ => true
  | _ => false

/-! ## Concrete inputs used by counterexamples and witnesses -/

/-- A one-byte attachment with the default content type. -/
def attC1 : Attachment :=
  ⟨"f.bin", [⟨0, by omega⟩], "application/octet-stream"⟩

/-- A message with both an HTML body and an attachment. -/
def eC1 : Email :=
  { «to» := ["t@x"], subject := "S", html := "<h1>hi</h1>", attachments := [attC1] }

/-- A plain-body-only message (no html, no attachments). -/
def eC1w : Email := { «to» := ["t@x"], subject := "S", body := "hi" }

/-- The document built from `eC1w`. -/
def mC1w : BuiltMessage :=
  ⟨[("Subject", "S"), ("From", "u"), ("To", "t@x")], .single "plain" "hi"⟩

/-- A message whose custom headers collide with the standard `Subject`. -/
def eC2 : Email :=
  { «to» := ["t@x"], subject := "A", body := "hi", headers := [("Subject", "B")] }

/-- The document built from `eC2`. -/
def mC2 : BuiltMessage :=
  ⟨[("Subject", "A"), ("From", "u"), ("To", "t@x"), ("Subject", "B")],
   .single "plain" "hi"⟩

/-- A no-TLS, no-auth configuration. -/
def cfgC3 : SMTPConfig :=
  { host := "mail.example.com", port := 25, use_tls := false }

/-- An ordinary one-recipient message. -/
def eC3 : Email := { «to» := ["t@x"], subject := "S", body := "hi" }

/-- A one-recipient message for the RCPT-trace witness. -/
def eC4 : Email := { «to» := ["r1@x"], subject := "S", body := "hi" }

/-- The response oracle shape of the fully-validated `send` path: one MAIL
FROM response, one response per recipient, the DATA response, the
final-`"."` response, then anything. -/
def oracleC5 (mc : Nat) (mm : String) (rcptResps : List (Nat × String))
    (dc : Nat) (dm : String) (fc : Nat) (fm : String) (rest : List Resp) : Conn :=
  ⟨Resp.ok mc mm :: ((rcptResps.map fun p => Resp.ok p.1 p.2)
     ++ Resp.ok dc dm :: Resp.ok fc fm :: rest), []⟩

/-- A one-recipient message for the `send` error-taxonomy witness. -/
def eC5 : Email := { «to» := ["r1@x"], subject := "S", body := "hi" }

/-- The document built from `eC5`. -/
def mC5 : BuiltMessage :=
  ⟨[("Subject", "S"), ("From", "u"), ("To", "r1@x")], .single "plain" "hi"⟩

/-- An html-only message. -/
def eC8 : Email := { «to» := ["t@x"], subject := "S", html := "<p>x</p>" }

/-- A two-byte `text/plain` attachment ("hi"). -/
def attC9 : Attachment :=
  ⟨"f.txt", [⟨104, by omega⟩, ⟨105, by omega⟩], "text/plain"⟩

/-- A message carrying `attC9` and nothing else. -/
def eC9 : Email := { «to» := ["t@x"], subject := "S", attachments := [attC9] }

/-- The document built from `eC9`. -/
def mC9 : BuiltMessage :=
  ⟨[("Subject", "S"), ("From", "u"), ("To", "t@x")],
   .multi "mixed"
     [.filePart "text" "plain" (encB64 attC9.content)
        [("Content-Disposition", "attachment; filename=f.txt")]]⟩

/-- A message with empty `to`, `cc` and `bcc`. -/
def eC10 : Email := { «to» := [], subject := "S", body := "hi" }

/-- The document built from `eC10`. -/
def mC10 : BuiltMessage :=
  ⟨[("Subject", "S"), ("From", "u"), ("To", "")], .single "plain" "hi"⟩

/-! ## Base64 round-trip lemmas -/

/-- Decoding a base64 digit inverts encoding a sextet. -/
theorem decChar_encChar : ∀ s : Fin 64, decChar (encChar s) = some s := by
  decide

/-- No sextet encodes to the padding character. -/
theorem encChar_ne_pad : ∀ s : Fin 64, ¬ encChar s = '=' := by
  decide

/-- Reassembling byte 1 from sextets 1 and 2 recovers it. -/
theorem byte1_sx (a b : Byte) : byte1 (sx1 a) (sx2 a b) = a := by
  have ha := a.isLt
  have hb := b.isLt
  apply Fin.ext
  show a.val / 4 * 4 + (a.val % 4 * 16 + b.val / 16) / 16 = a.val
  omega

/-- Reassembling byte 2 from sextets 2 and 3 recovers it. -/
theorem byte2_sx (a b c : Byte) : byte2 (sx2 a b) (sx3 b c) = b := by
  have ha := a.isLt
  have hb := b.isLt
  have hc := c.isLt
  apply Fin.ext
  show (a.val % 4 * 16 + b.val / 16) % 16 * 16 + (b.val % 16 * 4 + c.val / 64) / 4
      = b.val
  omega

/-- Reassembling byte 3 from sextets 3 and 4 recovers it. -/
theorem byte3_sx (b c : Byte) : byte3 (sx3 b c) (sx4 c) = c := by
  have hb := b.isLt
  have hc := c.isLt
  apply Fin.ext
  show (b.val % 16 * 4 + c.val / 64) % 4 * 64 + c.val % 64 = c.val
  omega

/-- Base64 decoding inverts base64 encoding on every byte sequence. -/
theorem b64_roundTrip : ∀ bs : List Byte, decB64 (encB64 bs) = some bs
  | [] => rfl
  | [a] => by
    simp [encB64, decB64, decChar_encChar, byte1_sx]
  | [a, b] => by
    simp [encB64, decB64, decChar_encChar, encChar_ne_pad, byte1_sx, byte2_sx]
  | a :: b :: c :: t => by
    have ih := b64_roundTrip t
    simp [encB64, decB64, decChar_encChar, encChar_ne_pad, ih,
      byte1_sx, byte2_sx, byte3_sx]

/-! ## MIME builder theorems -/

/-- Every attachment of a successful build contributes one part. -/
theorem buildAtts_mem :
    ∀ (l : List Attachment) (ps : List BuiltPart), buildAtts l = some ps →
      ∀ a ∈ l, ∃ p ∈ ps, attachmentPart a = some p := by
  intro l
  induction l with
  | nil => intro ps _ a ha; simp at ha
  | cons x xs ih =>
    intro ps h a ha
    simp only [buildAtts, Option.bind_eq_some] at h
    obtain ⟨p, hp, h⟩ := h
    obtain ⟨ps', hps', rfl⟩ := Option.map_eq_some'.mp h
    rcases List.mem_cons.mp ha with rfl | hmem
    · exact ⟨p, List.mem_cons_self _ _, hp⟩
    · obtain ⟨q, hq, haq⟩ := ih ps' hps' a hmem
      exact ⟨q, List.mem_cons_of_mem _ hq, haq⟩

/-- C1 fails on the code: for `eC1`, a message with an HTML body *and* an
attachment, `_build_message` picks `MIMEMultipart("alternative")` — the
top-level subtype is `"alternative"`, not `"mixed"` as the claim requires
for any message with at least one attachment. -/
theorem C1_counterexample :
    (build_message "u" eC1).map topSubtype ≠ some (some "mixed") ∧
    (build_message "u" eC1).map topSubtype = some (some "alternative") := by
  constructor
  · decide
  · decide

/-- C1 (amended): the top-level subtype is `"alternative"` whenever the
HTML body is non-empty (even with attachments present); it is `"mixed"`
exactly when attachments are present and the HTML body is empty; and with
no html and no attachments the output is a single plain-text part with no
multipart envelope. -/
theorem C1_amended_subtype (u : String) (e : Email) (m : BuiltMessage)
    (h : build_message u e = some m) :
    (e.html ≠ "" → ∃ parts, m.content = .multi "alternative" parts) ∧
    (e.html = "" → e.attachments ≠ [] → ∃ parts, m.content = .multi "mixed" parts) ∧
    (e.html = "" → e.attachments = [] → m.content = .single "plain" e.body) := by
  by_cases hh : e.html = ""
  · by_cases ha : e.attachments = []
    · rw [build_message, if_neg (by simp [hh, ha])] at h
      refine ⟨fun hc => absurd hh hc, fun _ hc => absurd ha hc, fun _ _ => ?_⟩
      obtain rfl := Option.some_inj.mp h
      rfl
    · rw [build_message, if_pos (Or.inl ha)] at h
      obtain ⟨atts, _, rfl⟩ := Option.map_eq_some'.mp h
      refine ⟨fun hc => absurd hh hc, fun _ _ => ?_, fun _ hc => absurd hc ha⟩
      exact ⟨bodyParts e ++ atts, by simp [hh]⟩
  · rw [build_message, if_pos (Or.inr hh)] at h
    obtain ⟨atts, _, rfl⟩ := Option.map_eq_some'.mp h
    refine ⟨fun _ => ⟨bodyParts e ++ atts, by simp [hh]⟩,
      fun hc => absurd hc hh, fun hc => absurd hc hh⟩

/-- Witness for C1 (amended): the plain-body-only message `eC1w` builds to
a bare single plain-text part. -/
theorem C1_amended_subtype_witness :
    mC1w.content = BuiltContent.single "plain" eC1w.body :=
  (C1_amended_subtype "u" eC1w mC1w (by decide)).2.2 (by decide) (by decide)

/-- C2 fails on the code: `Message.__setitem__` appends rather than
overwrites, so for `eC2` (standard `Subject: A`, custom `Subject: B`) the
built document carries *both* Subject header lines, in assignment order —
not only the custom mapping's value. -/
theorem C2_counterexample :
    ((build_message "u" eC2).map fun m =>
        (m.headers.filter fun h => h.1 == "Subject").map Prod.snd)
      = some ["A", "B"] ∧
    ((build_message "u" eC2).map fun m =>
        (m.headers.filter fun h => h.1 == "Subject").map Prod.snd)
      ≠ some ["B"] := by
  constructor
  · decide
  · decide

/-- C2 (amended): each custom header entry is appended as an additional
header line after the standard ones; on a key collision the document
contains both the standard value and the custom value (standard first) —
last-write-wins does not happen. -/
theorem C2_amended_headers (u : String) (e : Email) (m : BuiltMessage)
    (h : build_message u e = some m) :
    m.headers = stdHeaders u e ++ e.headers ∧
    (∀ p ∈ stdHeaders u e, p ∈ m.headers) ∧
    (∀ p ∈ e.headers, p ∈ m.headers) := by
  have hm : m.headers = stdHeaders u e ++ e.headers := by
    rw [build_message] at h
    split at h
    · obtain ⟨atts, _, rfl⟩ := Option.map_eq_some'.mp h
      rfl
    · obtain rfl := Option.some_inj.mp h
      rfl
  refine ⟨hm, fun p hp => ?_, fun p hp => ?_⟩
  · rw [hm]; exact List.mem_append_left _ hp
  · rw [hm]; exact List.mem_append_right _ hp

/-- Witness for C2 (amended): the collision message `eC2` carries the
standard `("Subject", "A")` followed by the custom `("Subject", "B")`. -/
theorem C2_amended_headers_witness :
    mC2.headers = stdHeaders "u" eC2 ++ eC2.headers :=
  (C2_amended_headers "u" eC2 mC2 (by decide)).1

/-- C8: a message with a non-empty HTML body and no attachments builds to
`multipart/alternative` holding exactly the non-empty parts among
{plain body, html body}, plain part first. -/
theorem C8_alternative_parts (u : String) (e : Email)
    (hh : e.html ≠ "") (ha : e.attachments = []) :
    build_message u e
      = some ⟨stdHeaders u e ++ e.headers,
          .multi "alternative"
            ((if e.body = "" then [] else [.text "plain" e.body])
              ++ [.text "html" e.html])⟩ := by
  rw [build_message, if_pos (Or.inr hh)]
  simp [ha, buildAtts, bodyParts, hh]

/-- Witness for C8 at the html-only message `eC8`. -/
theorem C8_alternative_parts_witness :
    build_message "u" eC8
      = some ⟨stdHeaders "u" eC8 ++ eC8.headers,
          .multi "alternative"
            ((if eC8.body = "" then [] else [.text "plain" eC8.body])
              ++ [.text "html" eC8.html])⟩ :=
  C8_alternative_parts "u" eC8 (by decide) (by decide)

/-- C9: every attachment of a successfully built message appears as a part
whose payload is the base64 encoding of its content, and decoding that
payload yields exactly the original content bytes. -/
theorem C9_b64_roundtrip (u : String) (e : Email) (m : BuiltMessage)
    (a : Attachment) (ha : a ∈ e.attachments)
    (h : build_message u e = some m) (mt st : String)
    (hct : splitContentType a.content_type = some (mt, st)) :
    BuiltPart.filePart mt st (encB64 a.content)
        [("Content-Disposition", "attachment; filename=" ++ a.filename)]
      ∈ partsOf m ∧
    decB64 (encB64 a.content) = some a.content := by
  refine ⟨?_, b64_roundTrip a.content⟩
  rw [build_message, if_pos (Or.inl (List.ne_nil_of_mem ha))] at h
  obtain ⟨atts, hatts, rfl⟩ := Option.map_eq_some'.mp h
  obtain ⟨p, hp, hap⟩ := buildAtts_mem e.attachments atts hatts a ha
  rw [attachmentPart, hct] at hap
  obtain rfl := Option.some_inj.mp hap
  exact List.mem_append_right _ hp

/-- Witness for C9: the `text/plain` attachment `attC9` of `eC9` round
trips through its generated part. -/
theorem C9_b64_roundtrip_witness :
    BuiltPart.filePart "text" "plain" (encB64 attC9.content)
        [("Content-Disposition", "attachment; filename=" ++ attC9.filename)]
      ∈ partsOf mC9 ∧
    decB64 (encB64 attC9.content) = some attC9.content :=
  C9_b64_roundtrip "u" eC9 mC9 attC9 (by decide) (by decide) "text" "plain"
    (by decide)

/-! ## Session lifecycle theorems -/

/-- C3 is violated by the code: running the `with`-statement entry point
against a server whose greeting read fails, the socket is opened inside
`connect()` but never closed — `connect()` has no `try`/`finally` and
Python skips `__exit__` when `__enter__` raises, so `socket.close()` is
never reached and the transport leaks. -/
theorem C3_socket_leak :
    (sendTop cfgC3 ⟨[Resp.err], []⟩ eC3).1.socketOpened = true ∧
    (sendTop cfgC3 ⟨[Resp.err], []⟩ eC3).1.closeCount = 0 ∧
    (sendTop cfgC3 ⟨[Resp.err], []⟩ eC3).2 = .error .transport :=
  ⟨rfl, rfl, rfl⟩

/-- C7: `close()` never raises — whatever the QUIT exchange does (broken
transport, empty stream, malformed response), the call returns normally,
and the underlying socket is closed exactly when it had been opened. -/
theorem C7_close_never_raises (s : Session) :
    (closeS s).2 = .ok () ∧
    (closeS s).1.closeCount = s.closeCount + (if s.socketOpened then 1 else 0) ∧
    (closeS s).1.socketOpened = s.socketOpened := by
  rcases s with ⟨⟨resps, sent⟩, so, cc⟩
  rcases resps with _ | ⟨r, rest⟩
  · refine ⟨rfl, ?_, rfl⟩
    cases so <;> simp [closeS, command, readResp]
  · rcases r with ⟨code, text⟩ | _ <;> refine ⟨rfl, ?_, rfl⟩ <;>
      cases so <;> simp [closeS, command, readResp]

/-! ## RCPT loop lemmas -/

/-- Running `sendRcpts` with one good (250/251) response per recipient consumes
exactly one response per recipient and appends exactly one `RCPT TO` event
per recipient, in list order, then succeeds. -/
theorem sendRcpts_all_good :
    ∀ (rs : List String) (codes : List (Nat × String)) (rest : List Resp)
      (sent : List Ev),
      codes.length = rs.length →
      (∀ p ∈ codes, p.1 = 250 ∨ p.1 = 251) →
      sendRcpts ⟨(codes.map fun p => Resp.ok p.1 p.2) ++ rest, sent⟩ rs
        = (⟨rest, sent ++ rs.map Ev.rcptTo⟩, .ok ()) := by
  intro rs
  induction rs with
  | nil =>
    intro codes rest sent hlen _
    rcases codes with _ | ⟨p, ptl⟩
    · simp [sendRcpts]
    · simp at hlen
  | cons r rtl ih =>
    intro codes rest sent hlen hgood
    rcases codes with _ | ⟨p, ptl⟩
    · simp at hlen
    · have hp : p.1 = 250 ∨ p.1 = 251 := hgood p (List.mem_cons_self _ _)
      simp only [List.map_cons, List.cons_append, sendRcpts, command, readResp]
      rw [if_pos hp]
      rw [ih ptl rest (sent ++ [Ev.rcptTo r]) (by simpa using hlen)
        (fun q hq => hgood q (List.mem_cons_of_mem _ hq))]
      simp

/-- Lemma: `sendRcpts` aborts on the first response outside {250, 251}: it raises
the `SMTPError` naming that recipient and that response's text, having
issued RCPT commands only for the preceding recipients and this one. -/
theorem sendRcpts_first_bad :
    ∀ (rpre : List String) (r : String) (rpost : List String)
      (cpre : List (Nat × String)) (p : Nat × String) (crest : List Resp)
      (sent : List Ev),
      cpre.length = rpre.length →
      (∀ q ∈ cpre, q.1 = 250 ∨ q.1 = 251) →
      ¬(p.1 = 250 ∨ p.1 = 251) →
      sendRcpts
          ⟨(cpre.map fun q => Resp.ok q.1 q.2) ++ Resp.ok p.1 p.2 :: crest, sent⟩
          (rpre ++ r :: rpost)
        = (⟨crest, sent ++ (rpre ++ [r]).map Ev.rcptTo⟩,
           .error (.protocol ("RCPT TO failed for " ++ r ++ ": " ++ p.2))) := by
  intro rpre
  induction rpre with
  | nil =>
    intro r rpost cpre p crest sent hlen hgood hbad
    rcases cpre with _ | ⟨q, qtl⟩
    · simp only [List.map_nil, List.nil_append, sendRcpts, command, readResp]
      rw [if_neg hbad]
      simp
    · simp at hlen
  | cons r0 rtl ih =>
    intro r rpost cpre p crest sent hlen hgood hbad
    rcases cpre with _ | ⟨q, qtl⟩
    · simp at hlen
    · have hq : q.1 = 250 ∨ q.1 = 251 := hgood q (List.mem_cons_self _ _)
      simp only [List.map_cons, List.cons_append, sendRcpts, command, readResp]
      rw [if_pos hq]
      simp only [List.append_eq]
      rw [ih r rpost qtl p crest (sent ++ [Ev.rcptTo r0]) (by simpa using hlen)
        (fun q' hq' => hgood q' (List.mem_cons_of_mem _ hq')) hbad]
      simp

/-- A pure run of RCPT events survives the RCPT filter unchanged. -/
theorem filter_rcpt_map (rs : List String) :
    (rs.map Ev.rcptTo).filter isRcptEv = rs.map Ev.rcptTo := by
  induction rs with
  | nil => rfl
  | cons r t ih => simp [isRcptEv, ih]

/-- The DATA phase (DATA command, message body, terminating dot) never
emits an RCPT event, on any oracle and any outcome. -/
theorem dataPhase_filter (u : String) (c : Conn) (e : Email) :
    (dataPhase u c e).1.sent.filter isRcptEv = c.sent.filter isRcptEv := by
  rcases c with ⟨resps, sent⟩
  rcases resps with _ | ⟨r, rest⟩
  · simp [dataPhase, command, readResp, isRcptEv, List.filter_append]
  · rcases r with ⟨code, text⟩ | _
    · simp only [dataPhase, command, readResp]
      by_cases h354 : code = 354
      · rw [if_neg (not_not_intro h354)]
        rcases hb : build_message u e with _ | m
        · simp [isRcptEv, List.filter_append]
        · rcases rest with _ | ⟨r2, rest2⟩
          · simp [isRcptEv, List.filter_append]
          · rcases r2 with ⟨code2, text2⟩ | _
            · by_cases h250 : code2 = 250 <;>
                simp [h250, isRcptEv, List.filter_append]
            · simp [isRcptEv, List.filter_append]
      · rw [if_pos h354]
        simp [isRcptEv, List.filter_append]
    · simp [dataPhase, command, readResp, isRcptEv, List.filter_append]

/-! ## send() claim theorems -/

/-- C4: with a good MAIL FROM response, `send` issues exactly one
`RCPT TO` per address of `to ++ cc ++ bcc`, in that order, when every RCPT
response is 250/251; and on the first RCPT response outside {250, 251} it
raises the protocol error naming that recipient, its full trace being MAIL
FROM followed by the RCPT commands up to and including the offending one —
none for later recipients. -/
theorem C4_rcpt_sequence (u m0 : String) (e : Email)
    (codes : List (Nat × String)) (rest : List Resp) :
    (codes.length = (recipientsOf e).length →
      (∀ p ∈ codes, p.1 = 250 ∨ p.1 = 251) →
      (sendEmail u
          ⟨Resp.ok 250 m0 :: ((codes.map fun p => Resp.ok p.1 p.2) ++ rest), []⟩
          e).1.sent.filter isRcptEv
        = (recipientsOf e).map Ev.rcptTo) ∧
    (∀ rpre r rpost cpre p cpost,
      recipientsOf e = rpre ++ r :: rpost →
      codes = cpre ++ p :: cpost →
      cpre.length = rpre.length →
      (∀ q ∈ cpre, q.1 = 250 ∨ q.1 = 251) →
      ¬(p.1 = 250 ∨ p.1 = 251) →
      (sendEmail u
          ⟨Resp.ok 250 m0 :: ((codes.map fun p => Resp.ok p.1 p.2) ++ rest), []⟩
          e).2
        = .error (.protocol ("RCPT TO failed for " ++ r ++ ": " ++ p.2)) ∧
      (sendEmail u
          ⟨Resp.ok 250 m0 :: ((codes.map fun p => Resp.ok p.1 p.2) ++ rest), []⟩
          e).1.sent
        = Ev.mailFrom (if e.from_addr = "" then u else e.from_addr)
            :: (rpre ++ [r]).map Ev.rcptTo) := by
  constructor
  · intro hlen hgood
    simp only [sendEmail, command, readResp]
    rw [if_neg (not_not_intro rfl)]
    rw [sendRcpts_all_good (recipientsOf e) codes rest _ hlen hgood]
    rw [dataPhase_filter]
    simp [filter_rcpt_map, isRcptEv]
  · intro rpre r rpost cpre p cpost hrs hcodes hlen hgood hbad
    simp only [sendEmail, command, readResp]
    rw [if_neg (not_not_intro rfl)]
    rw [hrs, hcodes]
    simp only [List.map_append, List.map_cons, List.append_assoc,
      List.cons_append]
    rw [sendRcpts_first_bad rpre r rpost cpre p (cpost.map (fun q => Resp.ok q.1 q.2) ++ rest)
      _ hlen hgood hbad]
    simp

/-- Witness for C4: one recipient, one good RCPT response — the trace
contains exactly that one RCPT command. -/
theorem C4_rcpt_sequence_witness :
    (sendEmail "u"
        ⟨Resp.ok 250 "a" :: (([((250 : Nat), "b")].map fun p => Resp.ok p.1 p.2)
           ++ [Resp.ok 354 "c", Resp.ok 250 "d"]), []⟩
        eC4).1.sent.filter isRcptEv
      = (recipientsOf eC4).map Ev.rcptTo :=
  (C4_rcpt_sequence "u" "a" eC4 [(250, "b")]
    [Resp.ok 354 "c", Resp.ok 250 "d"]).1 (by decide) (by decide)

/-- C5: with every response successfully read, `send` raises a protocol
error exactly when a validated step fails, with the documented message and
the raw response text: MAIL FROM ≠ 250 → "MAIL FROM failed", a RCPT
outside {250, 251} → "RCPT TO failed for <addr>", DATA ≠ 354 →
"DATA failed", final "." ≠ 250 → "Send failed"; and when no validated step
fails, `send` returns `true`. -/
theorem C5_protocol_errors (u mm : String) (mc : Nat) (e : Email)
    (rcptResps : List (Nat × String)) (dc : Nat) (dm : String)
    (fc : Nat) (fm : String) (rest : List Resp)
    (hlen : rcptResps.length = (recipientsOf e).length) :
    (mc ≠ 250 →
      (sendEmail u (oracleC5 mc mm rcptResps dc dm fc fm rest) e).2
        = .error (.protocol ("MAIL FROM failed: " ++ mm))) ∧
    (∀ rpre r rpost cpre p cpost,
      recipientsOf e = rpre ++ r :: rpost →
      rcptResps = cpre ++ p :: cpost →
      cpre.length = rpre.length →
      (∀ q ∈ cpre, q.1 = 250 ∨ q.1 = 251) →
      ¬(p.1 = 250 ∨ p.1 = 251) →
      (sendEmail u (oracleC5 250 mm rcptResps dc dm fc fm rest) e).2
        = .error (.protocol ("RCPT TO failed for " ++ r ++ ": " ++ p.2))) ∧
    ((∀ q ∈ rcptResps, q.1 = 250 ∨ q.1 = 251) → dc ≠ 354 →
      (sendEmail u (oracleC5 250 mm rcptResps dc dm fc fm rest) e).2
        = .error (.protocol ("DATA failed: " ++ dm))) ∧
    ((∀ q ∈ rcptResps, q.1 = 250 ∨ q.1 = 251) →
      ∀ m, build_message u e = some m → fc ≠ 250 →
      (sendEmail u (oracleC5 250 mm rcptResps 354 dm fc fm rest) e).2
        = .error (.protocol ("Send failed: " ++ fm))) ∧
    ((∀ q ∈ rcptResps, q.1 = 250 ∨ q.1 = 251) →
      ∀ m, build_message u e = some m →
      (sendEmail u (oracleC5 250 mm rcptResps 354 dm 250 fm rest) e).2
        = .ok true) := by
  refine ⟨?_, ?_, ?_, ?_, ?_⟩
  · intro hmc
    simp only [sendEmail, command, readResp, oracleC5]
    rw [if_pos hmc]
  · intro rpre r rpost cpre p cpost hrs hcodes hl hgood hbad
    simp only [sendEmail, command, readResp, oracleC5]
    rw [if_neg (not_not_intro rfl)]
    rw [hrs, hcodes]
    simp only [List.map_append, List.map_cons, List.append_assoc,
      List.cons_append]
    rw [sendRcpts_first_bad rpre r rpost cpre p
      (cpost.map (fun q => Resp.ok q.1 q.2) ++ Resp.ok dc dm :: Resp.ok fc fm :: rest)
      _ hl hgood hbad]
  · intro hgood hdc
    simp only [sendEmail, command, readResp, oracleC5]
    rw [if_neg (not_not_intro rfl)]
    rw [sendRcpts_all_good (recipientsOf e) rcptResps _ _ hlen hgood]
    simp only [dataPhase, command, readResp]
    rw [if_pos hdc]
  · intro hgood m hm hfc
    simp only [sendEmail, command, readResp, oracleC5]
    rw [if_neg (not_not_intro rfl)]
    rw [sendRcpts_all_good (recipientsOf e) rcptResps _ _ hlen hgood]
    simp only [dataPhase, command, readResp]
    rw [if_neg (not_not_intro rfl), hm]
    simp only
    rw [if_pos hfc]
  · intro hgood m hm
    simp only [sendEmail, command, readResp, oracleC5]
    rw [if_neg (not_not_intro rfl)]
    rw [sendRcpts_all_good (recipientsOf e) rcptResps _ _ hlen hgood]
    simp only [dataPhase, command, readResp]
    rw [if_neg (not_not_intro rfl), hm]
    simp only
    rw [if_neg (not_not_intro rfl)]

/-- Witness for C5: the all-good oracle makes `send` return `true`. -/
theorem C5_protocol_errors_witness :
    (sendEmail "u" (oracleC5 250 "a" [(250, "b")] 354 "c" 250 "d" []) eC5).2
      = .ok true :=
  (C5_protocol_errors "u" "a" 250 eC5 [(250, "b")] 354 "c" 250 "d" []
    (by decide)).2.2.2.2 (by decide) mC5 (by decide)

/-- C10: with `to`, `cc` and `bcc` all empty, `send` raises no
missing-recipient error: it issues MAIL FROM, zero RCPT commands, goes
straight to DATA, transmits the message and succeeds. -/
theorem C10_empty_recipients (u : String) (e : Email) (m : BuiltMessage)
    (m1 m2 m3 : String) (rest : List Resp)
    (hto : e.«to» = []) (hcc : e.cc = []) (hbcc : e.bcc = [])
    (hb : build_message u e = some m) :
    sendEmail u ⟨Resp.ok 250 m1 :: Resp.ok 354 m2 :: Resp.ok 250 m3 :: rest, []⟩ e
      = (⟨rest, [Ev.mailFrom (if e.from_addr = "" then u else e.from_addr),
                 Ev.dataCmd, Ev.dataBody m, Ev.dot]⟩, .ok true) := by
  simp only [sendEmail, command, readResp]
  rw [if_neg (not_not_intro rfl)]
  have hrs : recipientsOf e = [] := by simp [recipientsOf, hto, hcc, hbcc]
  rw [hrs]
  simp only [sendRcpts]
  simp only [dataPhase, command, readResp]
  rw [if_neg (not_not_intro rfl), hb]
  simp only
  rw [if_neg (not_not_intro rfl)]
  simp

/-- Witness for C10: the concrete empty-recipient message `eC10`. -/
theorem C10_empty_recipients_witness :
    sendEmail "u" ⟨Resp.ok 250 "a" :: Resp.ok 354 "b" :: Resp.ok 250 "c" :: [], []⟩ eC10
      = (⟨[], [Ev.mailFrom (if eC10.from_addr = "" then "u" else eC10.from_addr),
              Ev.dataCmd, Ev.dataBody mC10, Ev.dot]⟩, .ok true) :=
  C10_empty_recipients "u" eC10 mC10 "a" "b" "c" []
    (by decide) (by decide) (by decide) (by decide)

/-! ## Response reader theorems -/

/-- The accumulation loop stops exactly at the first terminator line. -/
theorem read_lines_split :
    ∀ (pre : List (List Char)) (t : List Char) (post : List (List Char)),
      (∀ l ∈ pre, isTermLine l = false) → isTermLine t = true →
      read_lines (pre ++ t :: post) = some (pre ++ [t]) := by
  intro pre
  induction pre with
  | nil =>
    intro t post _ ht
    simp [read_lines, ht]
  | cons l ls ih =>
    intro t post hpre ht
    have hl : isTermLine l = false := hpre l (List.mem_cons_self _ _)
    simp only [List.cons_append, read_lines, hl, Bool.false_eq_true, if_false,
      List.append_eq]
    rw [ih t post (fun x hx => hpre x (List.mem_cons_of_mem _ hx)) ht]
    simp

/-- The last line of an accumulated response. -/
theorem getLastD_append_single :
    ∀ (pre : List (List Char)) (t : List Char), (pre ++ [t]).getLastD [] = t := by
  intro pre
  induction pre with
  | nil => intro t; rfl
  | cons l ls ih =>
    intro t
    rcases ls with _ | ⟨l2, ls2⟩
    · rfl
    · simpa using ih t

/-- Joining a single line is that line. -/
theorem joinNL_single (t : List Char) : joinNL [t] = t := by
  simp [joinNL, List.intercalate]

/-- C6: on a stream whose first terminator line (length ≥ 4, 4th character
a space) is `t`, preceded by non-terminator lines `pre`, `_read_response`
accumulates exactly `pre ++ [t]`, returns the integer parsed from the
first three characters of `t`, and joins the accumulated lines with
newlines; when the very first line is a terminator it returns after
reading exactly that one line. -/
theorem C6_read_response (pre : List (List Char)) (t : List Char)
    (post : List (List Char)) (n : Nat)
    (hpre : ∀ l ∈ pre, isTermLine l = false)
    (ht : isTermLine t = true)
    (hcode : parseCode3 t = some n) :
    read_response (pre ++ t :: post) = some (n, joinNL (pre ++ [t])) ∧
    read_response (t :: post) = some (n, t) := by
  constructor
  · rw [read_response, read_lines_split pre t post hpre ht]
    simp [getLastD_append_single, hcode]
  · rw [read_response]
    have h0 : read_lines (t :: post) = some [t] := by simp [read_lines, ht]
    rw [h0]
    simp [hcode, joinNL_single]

/-- Witness for C6: the greeting `220-Welcome`, `220 Ready` parses to code
220 with both lines joined, and the single line `250 b` parses alone. -/
theorem C6_read_response_witness :
    read_response ([['2', '2', '0', '-', 'W']] ++ ['2', '2', '0', ' ', 'R'] :: [])
        = some (220, joinNL ([['2', '2', '0', '-', 'W']] ++ [['2', '2', '0', ' ', 'R']])) ∧
    read_response (['2', '2', '0', ' ', 'R'] :: [])
        = some (220, ['2', '2', '0', ' ', 'R']) :=
  C6_read_response [['2', '2', '0', '-', 'W']] ['2', '2', '0', ' ', 'R'] [] 220
    (by decide) (by decide) (by decide)

end RoadSMTP
